import Mathlib

/-!
Verification of the feed-visibility / follow-relationship model and the
index-cache contract of the Yatube blog application.

The repository ships its test suites (`posts/tests/test_views.py`,
`posts/tests/test_urls.py`) and two form classes (`posts/forms.py`,
`users/forms.py`); the views and models they exercise are described at
design level in the specification.  We embed the data model and the
operations shallowly: users are identified by natural numbers, the Follow
relation and the post store are explicit lists, and every request handler
is a pure function on an explicit application state.
-/

namespace Yatube

/-- Modelled from the spec: a Follow record is a pair (user = the
follower, author = the followed); `posts/models.py` is not shipped, the
shape is taken from section 3 of the design document and from the field
accesses `follow.user_id` / `follow.author_id` in the tests. -/
structure Follow where
  user : Nat
  author : Nat
deriving DecidableEq, Repr

/-- Modelled from the spec: a Post has required text and author, an
optional group, and a creation timestamp (`posts/models.py` is not
shipped).  The image field is irrelevant to the claims and omitted;
`created` is the creation timestamp used for newest-first ordering. -/
structure Post where
  id : Nat
  author : Nat
  group : Option Nat
  created : Nat
  text : String
deriving DecidableEq, Repr

/-- Modelled from the spec: the application state visible to the claims —
the post store, the Follow relation, and the index-page cache (a cached
copy of the rendered index listing, `none` when cleared). -/
structure State where
  posts : List Post
  follows : List Follow
  cache : Option (List Post)
deriving DecidableEq, Repr

/-- Modelled from the spec: `is_following(follower, target) -> bool`,
true when a Follow record with this user and author exists. -/
def isFollowing (s : State) (u a : Nat) : Bool :=
  s.follows.any (fun f => f.user == u && f.author == a)

/-- Modelled from the spec: `follow(follower, target)` creates the record
`(user = follower, author = target)` unless it already exists or
`follower == target`, in which case the call is a silent no-op. -/
def follow (s : State) (u a : Nat) : State :=
  if u = a then s
  else if isFollowing s u a then s
  else { s with follows := ⟨u, a⟩ :: s.follows }

/-- Modelled from the spec: `unfollow(follower, target)` deletes the
matching record if present and is a no-op otherwise. -/
def unfollow (s : State) (u a : Nat) : State :=
  { s with follows := s.follows.filter (fun f => !(f.user == u && f.author == a)) }

/-- Insert a post into a list kept sorted by creation time descending. -/
def insertDesc (p : Post) : List Post → List Post
  | [] => [p]
  | q :: qs => if q.created ≤ p.created then p :: q :: qs else q :: insertDesc p qs

/-- Sort a list of posts by creation time descending (newest first). -/
def sortDesc (l : List Post) : List Post :=
  l.foldr insertDesc []

/-- Modelled from the spec: `feed_for(viewer)` — all posts whose author is
followed by the viewer, ordered by creation time descending
(`posts/views.py` is not shipped; contract from section 4.2). -/
def feedFor (s : State) (viewer : Nat) : List Post :=
  sortDesc (s.posts.filter (fun p => isFollowing s viewer p.author))

/-- Modelled from the spec: listings are paginated at `POSTS_PER_PAGE`
posts per page. -/
def POSTS_PER_PAGE : Nat := 10

/-- Modelled from the spec: page `page` (1-based) of a listing paginated
into pages of `pageSize`. -/
def paginatePage (pageSize page : Nat) (l : List Post) : List Post :=
  (l.drop ((page - 1) * pageSize)).take pageSize

/-- Modelled from the spec: the rendered index listing — the first page of
all posts, newest first (`posts/views.py` is not shipped). -/
def renderIndex (s : State) : List Post :=
  paginatePage POSTS_PER_PAGE 1 (sortDesc s.posts)

/-- Modelled from the spec: profile listing — the first page of the
posts by one author, newest first. -/
def profilePosts (s : State) (u : Nat) : List Post :=
  paginatePage POSTS_PER_PAGE 1 (sortDesc (s.posts.filter (fun p => p.author == u)))

/-- Modelled from the spec: a GET of the index page served through the
index cache — returns the cached rendering when one is stored, otherwise
renders the listing and stores it under the fixed key. -/
def getIndex (s : State) : List Post × State :=
  match s.cache with
  | some c => (c, s)
  | none =>
      let r := renderIndex s
      (r, { s with cache := some r })

/-- Modelled from the spec: the explicit cache clear observed in the
tests (`cache.clear()`). -/
def clearCache (s : State) : State :=
  { s with cache := none }

/-- Modelled from the spec: creating a new post appends it to the store;
the index cache is not touched (the observed staleness window). -/
def createPost (s : State) (p : Post) : State :=
  { s with posts := p :: s.posts }

/-- Modelled from the spec: the POST handler of
`/profile/{username}/follow` binds the follower side to the authenticated
requester and the author side to the user named in the URL. -/
def profileFollowPost (s : State) (requester urlUser : Nat) : State :=
  follow s requester urlUser

/-- Modelled from the spec: the POST handler of
`/profile/{username}/unfollow`. -/
def profileUnfollowPost (s : State) (requester urlUser : Nat) : State :=
  unfollow s requester urlUser

/-- Number of Follow records for the pair (u, a) in the state. -/
def countPair (s : State) (u a : Nat) : Nat :=
  (s.follows.filter (fun f => f.user == u && f.author == a)).length

/-- Modelled from the spec: the routes of the HTTP surface table in
section 6 (`yatube/urls.py` and `posts/urls.py` are not shipped). -/
inductive Path where
  | index
  | postDetail (id : Nat)
  | groupList (slug : String)
  | profile (username : String)
  | create
  | postEdit (id : Nat)
  | followIndex
  | profileFollow (username : String)
  | profileUnfollow (username : String)
  | unknown (raw : String)
deriving DecidableEq, Repr

/-- Modelled from the spec: the URL string of each route, matching the
path patterns of the HTTP surface table. -/
def pathString : Path → String
  | .index => "/"
  | .postDetail id => "/posts/" ++ toString id ++ "/"
  | .groupList slug => "/group/" ++ slug ++ "/"
  | .profile u => "/profile/" ++ u ++ "/"
  | .create => "/create/"
  | .postEdit id => "/posts/" ++ toString id ++ "/edit/"
  | .followIndex => "/follow/"
  | .profileFollow u => "/profile/" ++ u ++ "/follow"
  | .profileUnfollow u => "/profile/" ++ u ++ "/unfollow"
  | .unknown raw => raw

/-- Modelled from the spec: which routes require authentication
(access column of the HTTP surface table). -/
def isPrivate : Path → Bool
  | .create => true
  | .postEdit _ => true
  | .followIndex => true
  | .profileFollow _ => true
  | .profileUnfollow _ => true
  | _ => false

/-- Outcome of a GET request, as far as the claims observe it. -/
inductive Response where
  | ok
  | redirect (location : String)
  | notFound
deriving DecidableEq, Repr

/-- The login page path, from the redirect targets asserted in the
tests (`/auth/login/?next=...`). -/
def loginURL : String := "/auth/login/"

/-- Modelled from the spec: GET dispatch — an unknown path is a 404, a
private path without authentication redirects to the login page with the
requested path in the next parameter, everything else renders (200). -/
def handleGet (p : Path) (authed : Bool) : Response :=
  match p with
  | .unknown _ => .notFound
  | _ =>
      if isPrivate p && !authed then
        .redirect (loginURL ++ "?next=" ++ pathString p)
      else .ok

/-- Field whitelist of PostForm, from `posts/forms.py`:
fields = ("text", "group", "image"). -/
def PostFormFields : List String := ["text", "group", "image"]

/-- Field whitelist of CommentForm, from `posts/forms.py`:
fields = ("text",). -/
def CommentFormFields : List String := ["text"]

/-- Modelled from the spec: the framework's model-form save — the
submitted data overwrites exactly the declared fields of the stored
record; every other field keeps its stored value (field values encoded
as naturals). -/
def modelFormSave (fields : List String) (submitted stored : String → Nat) :
    String → Nat :=
  fun f => if f ∈ fields then submitted f else stored f

/-! ### Helper lemmas -/

theorem mem_insertDesc {x p : Post} {l : List Post} :
    x ∈ insertDesc p l ↔ x = p ∨ x ∈ l := by
  induction l with
  | nil => simp [insertDesc]
  | cons q qs ih =>
      simp only [insertDesc]
      split
      · simp
      · simp [ih]
        tauto

theorem mem_sortDesc {x : Post} {l : List Post} :
    x ∈ sortDesc l ↔ x ∈ l := by
  induction l with
  | nil => simp [sortDesc]
  | cons q qs ih =>
      simp only [sortDesc, List.foldr_cons] at *
      rw [mem_insertDesc, ih]
      simp

theorem sorted_insertDesc {p : Post} {l : List Post}
    (h : l.Pairwise (fun a b => b.created ≤ a.created)) :
    (insertDesc p l).Pairwise (fun a b => b.created ≤ a.created) := by
  induction l with
  | nil => simp [insertDesc]
  | cons q qs ih =>
      simp only [insertDesc]
      rcases List.pairwise_cons.mp h with ⟨hq, hqs⟩
      split
      · rename_i hle
        refine List.pairwise_cons.mpr ⟨?_, h⟩
        intro b hb
        rcases List.mem_cons.mp hb with rfl | hb
        · exact hle
        · exact le_trans (hq b hb) hle
      · rename_i hgt
        push_neg at hgt
        refine List.pairwise_cons.mpr ⟨?_, ih hqs⟩
        intro b hb
        rcases mem_insertDesc.mp hb with rfl | hb
        · exact le_of_lt hgt
        · exact hq b hb

theorem sorted_sortDesc (l : List Post) :
    (sortDesc l).Pairwise (fun a b => b.created ≤ a.created) := by
  induction l with
  | nil => simp [sortDesc]
  | cons q qs ih => exact sorted_insertDesc ih

theorem insertDesc_eq_cons {p : Post} {l : List Post}
    (h : ∀ q ∈ l, q.created ≤ p.created) : insertDesc p l = p :: l := by
  cases l with
  | nil => rfl
  | cons q qs =>
      simp only [insertDesc]
      rw [if_pos (h q (List.mem_cons_self q qs))]

theorem isFollowing_iff {s : State} {u a : Nat} :
    isFollowing s u a = true ↔ (⟨u, a⟩ : Follow) ∈ s.follows := by
  simp only [isFollowing, List.any_eq_true, Bool.and_eq_true, beq_iff_eq]
  constructor
  · rintro ⟨f, hf, h1, h2⟩
    have hfe : f = ⟨u, a⟩ := by cases f; simp_all
    exact hfe ▸ hf
  · intro hf
    exact ⟨⟨u, a⟩, hf, rfl, rfl⟩

theorem follow_noop_of_following {s : State} {u a : Nat}
    (h : isFollowing s u a = true) : follow s u a = s := by
  by_cases heq : u = a
  · simp [follow, heq]
  · simp [follow, heq, h]

theorem follow_eq_cons {s : State} {u a : Nat} (hne : u ≠ a)
    (h : isFollowing s u a = false) :
    follow s u a = { s with follows := ⟨u, a⟩ :: s.follows } := by
  simp [follow, hne, h]

theorem length_insertDesc (p : Post) (l : List Post) :
    (insertDesc p l).length = l.length + 1 := by
  induction l with
  | nil => rfl
  | cons q qs ih =>
      simp only [insertDesc]
      split
      · simp
      · simp [ih]

theorem length_sortDesc (l : List Post) : (sortDesc l).length = l.length := by
  induction l with
  | nil => rfl
  | cons q qs ih =>
      show (insertDesc q (sortDesc qs)).length = qs.length + 1
      rw [length_insertDesc, ih]

theorem pairwise_paginatePage {R : Post → Post → Prop} {l : List Post}
    (n k : Nat) (h : l.Pairwise R) : (paginatePage n k l).Pairwise R :=
  List.Pairwise.sublist ((List.take_sublist _ _).trans (List.drop_sublist _ _)) h

theorem mem_feedFor {s : State} {v : Nat} {P : Post} :
    P ∈ feedFor s v ↔ P ∈ s.posts ∧ isFollowing s v P.author = true := by
  simp [feedFor, mem_sortDesc, List.mem_filter]

theorem countPair_eq_zero {s : State} {u a : Nat} :
    countPair s u a = 0 ↔ isFollowing s u a = false := by
  simp only [countPair, List.length_eq_zero, List.filter_eq_nil_iff, isFollowing,
    List.any_eq_false, Bool.and_eq_true, beq_iff_eq, not_and, Bool.not_eq_true]

theorem isFollowing_follow {s : State} {u a : Nat} (hne : u ≠ a) :
    isFollowing (follow s u a) u a = true := by
  by_cases hf : isFollowing s u a = true
  · rw [follow_noop_of_following hf]
    exact hf
  · rw [follow_eq_cons hne (Bool.eq_false_iff.mpr hf)]
    simp [isFollowing]

/-! ### Claims -/

/-- C1: for every viewer and every stored post P, `feed_for(viewer)`
contains P if and only if a Follow record with user = viewer and
author = P.author exists; a viewer who follows nobody gets an empty
feed. -/
theorem C1_feed_iff_followed (s : State) (viewer : Nat) :
    (∀ P ∈ s.posts,
      (P ∈ feedFor s viewer ↔ (⟨viewer, P.author⟩ : Follow) ∈ s.follows)) ∧
    ((∀ f ∈ s.follows, f.user ≠ viewer) → feedFor s viewer = []) := by
  constructor
  · intro P hP
    rw [mem_feedFor, isFollowing_iff]
    exact ⟨fun h => h.2, fun h => ⟨hP, h⟩⟩
  · intro h
    have hfilter : s.posts.filter (fun p => isFollowing s viewer p.author) = [] := by
      rw [List.filter_eq_nil_iff]
      intro p _
      intro hc
      exact (h _ (isFollowing_iff.mp hc)) rfl
    unfold feedFor
    rw [hfilter]
    rfl

/-- Witness for C1 on a concrete state: the one stored post by author 5
is in the feed of viewer 7 (who follows 5), and the feed of viewer 9 (who
follows nobody) is empty. -/
theorem C1_feed_iff_followed_witness :
    ((⟨1, 5, none, 100, "hi"⟩ : Post) ∈
      feedFor ⟨[⟨1, 5, none, 100, "hi"⟩], [⟨7, 5⟩], none⟩ 7) ∧
    feedFor ⟨[⟨1, 5, none, 100, "hi"⟩], [⟨7, 5⟩], none⟩ 9 = [] :=
  ⟨((C1_feed_iff_followed ⟨[⟨1, 5, none, 100, "hi"⟩], [⟨7, 5⟩], none⟩ 7).1
      ⟨1, 5, none, 100, "hi"⟩ (by decide)).mpr (by decide),
   (C1_feed_iff_followed ⟨[⟨1, 5, none, 100, "hi"⟩], [⟨7, 5⟩], none⟩ 9).2
      (by decide)⟩

/-- C2: `follow(u, u)` is a silent no-op — the state is unchanged, so in
particular no Follow record with user = u and author = u comes into
existence. -/
theorem C2_self_follow_noop (s : State) (u : Nat) :
    follow s u u = s ∧
    ((⟨u, u⟩ : Follow) ∉ s.follows → (⟨u, u⟩ : Follow) ∉ (follow s u u).follows) := by
  have h : follow s u u = s := by simp [follow]
  exact ⟨h, fun hn => h.symm ▸ hn⟩

/-- Witness for C2 on a concrete state: user 3 trying to follow
themselves leaves the state unchanged and creates no (3, 3) record. -/
theorem C2_self_follow_noop_witness :
    follow ⟨[], [⟨7, 5⟩], none⟩ 3 3 = ⟨[], [⟨7, 5⟩], none⟩ ∧
    (⟨3, 3⟩ : Follow) ∉ (follow ⟨[], [⟨7, 5⟩], none⟩ 3 3).follows :=
  ⟨(C2_self_follow_noop ⟨[], [⟨7, 5⟩], none⟩ 3).1,
   (C2_self_follow_noop ⟨[], [⟨7, 5⟩], none⟩ 3).2 (by decide)⟩

/-- C3: for distinct users, calling `follow(u, a)` twice leaves exactly
one Follow record for the pair (given the uniqueness invariant held
before), and the second call is a silent no-op. -/
theorem C3_follow_idempotent (s : State) (u a : Nat) (hne : u ≠ a)
    (huniq : countPair s u a ≤ 1) :
    countPair (follow (follow s u a) u a) u a = 1 ∧
    follow (follow s u a) u a = follow s u a := by
  have hsecond : follow (follow s u a) u a = follow s u a :=
    follow_noop_of_following (isFollowing_follow hne)
  refine ⟨?_, hsecond⟩
  rw [hsecond]
  by_cases hf : isFollowing s u a = true
  · rw [follow_noop_of_following hf]
    have hpos : countPair s u a ≠ 0 := by
      intro h0
      rw [countPair_eq_zero] at h0
      rw [h0] at hf
      exact Bool.false_ne_true hf
    omega
  · have hfalse : isFollowing s u a = false := Bool.eq_false_iff.mpr hf
    have hzero : countPair s u a = 0 := countPair_eq_zero.mpr hfalse
    rw [follow_eq_cons hne hfalse]
    simp only [countPair] at hzero ⊢
    rw [List.filter_cons]
    simp only [beq_self_eq_true, Bool.and_self, if_true, List.length_cons]
    omega

/-- Witness for C3 on a concrete state: user 1 following user 2 twice
from the empty relation yields exactly one (1, 2) record and the second
call changes nothing. -/
theorem C3_follow_idempotent_witness :
    countPair (follow (follow ⟨[], [], none⟩ 1 2) 1 2) 1 2 = 1 ∧
    follow (follow ⟨[], [], none⟩ 1 2) 1 2 = follow ⟨[], [], none⟩ 1 2 :=
  C3_follow_idempotent ⟨[], [], none⟩ 1 2 (by decide) (by decide)

/-- C4: `unfollow(u, a)` after `follow(u, a)` restores the prior state
(when the pair was absent before), the feed of u afterwards contains no
post authored by a, and unfollow of a non-existent pair is a no-op. -/
theorem C4_unfollow_undoes_follow (s : State) (u a : Nat) :
    ((⟨u, a⟩ : Follow) ∉ s.follows → unfollow (follow s u a) u a = s) ∧
    (∀ P ∈ feedFor (unfollow (follow s u a) u a) u, P.author ≠ a) ∧
    ((⟨u, a⟩ : Follow) ∉ s.follows → unfollow s u a = s) := by
  have hfilter : ∀ t : State, (⟨u, a⟩ : Follow) ∉ t.follows →
      t.follows.filter (fun f => !(f.user == u && f.author == a)) = t.follows := by
    intro t ht
    rw [List.filter_eq_self]
    intro f hf
    simp only [Bool.not_eq_true', Bool.and_eq_false_iff, beq_eq_false_iff_ne, ne_eq]
    by_contra hc
    push_neg at hc
    rcases hc with ⟨h1, h2⟩
    have : f = ⟨u, a⟩ := by cases f; simp_all
    exact ht (this ▸ hf)
  have hnoop : (⟨u, a⟩ : Follow) ∉ s.follows → unfollow s u a = s := by
    intro h
    unfold unfollow
    rw [hfilter s h]
  refine ⟨?_, ?_, hnoop⟩
  · intro h
    by_cases heq : u = a
    · have : follow s u a = s := by simp [follow, heq]
      rw [this]
      exact hnoop h
    · have hnf : isFollowing s u a = false := by
        rw [Bool.eq_false_iff]
        intro hc
        exact h (isFollowing_iff.mp hc)
      have : follow s u a = { s with follows := ⟨u, a⟩ :: s.follows } := by
        simp [follow, heq, hnf]
      rw [this]
      unfold unfollow
      simp only [List.filter_cons]
      rw [if_neg (by simp)]
      rw [hfilter s h]
  · intro P hP
    rcases mem_feedFor.mp hP with ⟨_, hfol⟩
    intro hauthor
    rw [hauthor] at hfol
    have hmem := isFollowing_iff.mp hfol
    simp only [unfollow, List.mem_filter] at hmem
    rcases hmem with ⟨_, hpred⟩
    simp at hpred

/-- Witness for C4 on a concrete state: following then unfollowing user 2
restores the initial state with its single unrelated record, the feed of
user 1 has no post by user 2, and unfollowing a non-existent pair is a
no-op. -/
theorem C4_unfollow_undoes_follow_witness :
    unfollow (follow ⟨[⟨1, 2, none, 5, "t"⟩], [⟨9, 8⟩], none⟩ 1 2) 1 2 =
      ⟨[⟨1, 2, none, 5, "t"⟩], [⟨9, 8⟩], none⟩ ∧
    (∀ P ∈ feedFor (unfollow (follow ⟨[⟨1, 2, none, 5, "t"⟩], [⟨9, 8⟩], none⟩ 1 2) 1 2) 1,
      P.author ≠ 2) ∧
    unfollow ⟨[⟨1, 2, none, 5, "t"⟩], [⟨9, 8⟩], none⟩ 1 2 =
      ⟨[⟨1, 2, none, 5, "t"⟩], [⟨9, 8⟩], none⟩ :=
  ⟨(C4_unfollow_undoes_follow ⟨[⟨1, 2, none, 5, "t"⟩], [⟨9, 8⟩], none⟩ 1 2).1 (by decide),
   (C4_unfollow_undoes_follow ⟨[⟨1, 2, none, 5, "t"⟩], [⟨9, 8⟩], none⟩ 1 2).2.1,
   (C4_unfollow_undoes_follow ⟨[⟨1, 2, none, 5, "t"⟩], [⟨9, 8⟩], none⟩ 1 2).2.2 (by decide)⟩

/-- C5: while the index cache is valid, creating a new post does not
change the served index page (the second GET returns byte-identical
content), and after an explicit cache clear the served page differs (the
new content becomes visible).  The hypotheses say the cache starts
cleared and the new post is fresh (new id, newest timestamp), as in the
test scenario. -/
theorem C5_index_cache (s : State) (p : Post) (hc : s.cache = none)
    (hnew : ∀ q ∈ s.posts, q.created ≤ p.created)
    (hfresh : ∀ q ∈ s.posts, q.id ≠ p.id) :
    (getIndex (createPost (getIndex s).2 p)).1 = (getIndex s).1 ∧
    (getIndex (clearCache (getIndex (createPost (getIndex s).2 p)).2)).1 ≠
      (getIndex (createPost (getIndex s).2 p)).1 := by
  have h1 : getIndex s = (renderIndex s, { s with cache := some (renderIndex s) }) := by
    simp [getIndex, hc]
  have h2 : createPost (getIndex s).2 p =
      ⟨p :: s.posts, s.follows, some (renderIndex s)⟩ := by
    rw [h1]
    rfl
  have h3 : getIndex (createPost (getIndex s).2 p) =
      (renderIndex s, ⟨p :: s.posts, s.follows, some (renderIndex s)⟩) := by
    rw [h2]
    rfl
  have hcons : sortDesc (p :: s.posts) = p :: sortDesc s.posts :=
    insertDesc_eq_cons (fun q hq => hnew q (mem_sortDesc.mp hq))
  have hrnew : renderIndex (⟨p :: s.posts, s.follows, none⟩ : State) =
      (p :: sortDesc s.posts).take 10 := by
    simp [renderIndex, paginatePage, POSTS_PER_PAGE, hcons]
  have hrold : renderIndex s = (sortDesc s.posts).take 10 := by
    simp [renderIndex, paginatePage, POSTS_PER_PAGE]
  have h4 : getIndex (clearCache (getIndex (createPost (getIndex s).2 p)).2) =
      ((p :: sortDesc s.posts).take 10,
        ⟨p :: s.posts, s.follows, some ((p :: sortDesc s.posts).take 10)⟩) := by
    rw [h3]
    show getIndex ⟨p :: s.posts, s.follows, none⟩ = _
    simp [getIndex, hrnew]
  have hne : (p :: sortDesc s.posts).take 10 ≠ (sortDesc s.posts).take 10 := by
    cases hso : sortDesc s.posts with
    | nil => simp
    | cons hd tl =>
        intro heq
        have hheads : some p = some hd := by
          have e1 : ((p :: (hd :: tl)).take 10).head? = some p := rfl
          have e2 : ((hd :: tl).take 10).head? = some hd := rfl
          rw [← e1, ← e2, heq]
        have hpd : p = hd := Option.some.inj hheads
        have hmem : hd ∈ s.posts := mem_sortDesc.mp (hso ▸ List.mem_cons_self hd tl)
        exact hfresh hd hmem (hpd ▸ rfl)
  constructor
  · rw [h3, h1]
  · rw [h4, h3]
    simpa [hrold] using hne

/-- Witness for C5 on a concrete state: one stored post, the cache
cleared, and a fresh newer post being created. -/
theorem C5_index_cache_witness :
    (getIndex (createPost (getIndex ⟨[⟨1, 1, none, 0, "a"⟩], [], none⟩).2
        ⟨2, 1, none, 5, "b"⟩)).1 =
      (getIndex ⟨[⟨1, 1, none, 0, "a"⟩], [], none⟩).1 ∧
    (getIndex (clearCache (getIndex (createPost
        (getIndex ⟨[⟨1, 1, none, 0, "a"⟩], [], none⟩).2 ⟨2, 1, none, 5, "b"⟩)).2)).1 ≠
      (getIndex (createPost (getIndex ⟨[⟨1, 1, none, 0, "a"⟩], [], none⟩).2
        ⟨2, 1, none, 5, "b"⟩)).1 :=
  C5_index_cache ⟨[⟨1, 1, none, 0, "a"⟩], [], none⟩ ⟨2, 1, none, 5, "b"⟩
    (by decide) (by decide) (by decide)

/-- C6: with exactly 13 posts in the store, page 1 of the index listing
contains exactly 10 posts and page 2 exactly 3. -/
theorem C6_pagination (s : State) (h : s.posts.length = 13) :
    (renderIndex s).length = 10 ∧
    (paginatePage POSTS_PER_PAGE 2 (sortDesc s.posts)).length = 3 := by
  have hl : (sortDesc s.posts).length = 13 := by rw [length_sortDesc, h]
  constructor
  · simp [renderIndex, paginatePage, POSTS_PER_PAGE, hl]
  · simp [paginatePage, POSTS_PER_PAGE, hl]

/-- Witness for C6 on a concrete store of 13 posts. -/
theorem C6_pagination_witness :
    (renderIndex ⟨List.replicate 13 ⟨0, 0, none, 0, "p"⟩, [], none⟩).length = 10 ∧
    (paginatePage POSTS_PER_PAGE 2
      (sortDesc (⟨List.replicate 13 ⟨0, 0, none, 0, "p"⟩, [], none⟩ : State).posts)).length = 3 :=
  C6_pagination ⟨List.replicate 13 ⟨0, 0, none, 0, "p"⟩, [], none⟩ (by decide)

/-- C7: every private GET path (post creation, post edit, the
personalized feed) answered unauthenticated is a redirect to the login
page with the requested path as the next parameter, while the same GET
authenticated returns 200; in particular GET /create/ unauthenticated
redirects to /auth/login/?next=/create/. -/
theorem C7_login_redirect (id : Nat) :
    (∀ p ∈ [Path.create, Path.postEdit id, Path.followIndex],
      handleGet p false = Response.redirect ("/auth/login/?next=" ++ pathString p) ∧
      handleGet p true = Response.ok) ∧
    handleGet Path.create false = Response.redirect "/auth/login/?next=/create/" := by
  constructor
  · intro p hp
    simp only [List.mem_cons, List.not_mem_nil, or_false] at hp
    rcases hp with rfl | rfl | rfl
    · exact ⟨rfl, rfl⟩
    · exact ⟨rfl, rfl⟩
    · exact ⟨rfl, rfl⟩
  · rfl

/-- Witness for C7 at the concrete path /create/. -/
theorem C7_login_redirect_witness :
    handleGet Path.create false =
      Response.redirect ("/auth/login/?next=" ++ pathString Path.create) ∧
    handleGet Path.create true = Response.ok :=
  (C7_login_redirect 1).1 Path.create (by decide)

/-- C8: every listing of posts — the personalized feed, the index page,
and a profile page — is ordered by creation time descending: each post
appears no later than every post listed after it. -/
theorem C8_newest_first (s : State) (viewer u : Nat) :
    (feedFor s viewer).Pairwise (fun a b => b.created ≤ a.created) ∧
    (renderIndex s).Pairwise (fun a b => b.created ≤ a.created) ∧
    (profilePosts s u).Pairwise (fun a b => b.created ≤ a.created) :=
  ⟨sorted_sortDesc _,
   pairwise_paginatePage _ _ (sorted_sortDesc _),
   pairwise_paginatePage _ _ (sorted_sortDesc _)⟩

/-- C9: a POST to the follow endpoint binds the follower side of any
record it creates to the authenticated requester and the followee side
to the user named in the URL — every record present afterwards either
existed before or is exactly (requester, url user); and for distinct
users the (requester, url user) record does exist afterwards. -/
theorem C9_follow_binds_requester (s : State) (requester urlUser : Nat) :
    (∀ f ∈ (profileFollowPost s requester urlUser).follows,
      f ∈ s.follows ∨ (f.user = requester ∧ f.author = urlUser)) ∧
    (requester ≠ urlUser →
      (⟨requester, urlUser⟩ : Follow) ∈ (profileFollowPost s requester urlUser).follows) := by
  constructor
  · intro f hf
    unfold profileFollowPost follow at hf
    split at hf
    · exact Or.inl hf
    · split at hf
      · exact Or.inl hf
      · rcases List.mem_cons.mp hf with rfl | hmem
        · exact Or.inr ⟨rfl, rfl⟩
        · exact Or.inl hmem
  · intro hne
    exact isFollowing_iff.mp (isFollowing_follow hne)

/-- Witness for C9 on a concrete state: requester 4 following user 6
creates only the record (4, 6). -/
theorem C9_follow_binds_requester_witness :
    ((⟨4, 6⟩ : Follow) ∈ (profileFollowPost ⟨[], [⟨9, 8⟩], none⟩ 4 6).follows) ∧
    ((⟨9, 8⟩ : Follow) ∈ (⟨[], [⟨9, 8⟩], none⟩ : State).follows ∨
      ((⟨9, 8⟩ : Follow).user = 4 ∧ (⟨9, 8⟩ : Follow).author = 6)) :=
  ⟨(C9_follow_binds_requester ⟨[], [⟨9, 8⟩], none⟩ 4 6).2 (by decide),
   (C9_follow_binds_requester ⟨[], [⟨9, 8⟩], none⟩ 4 6).1 ⟨9, 8⟩ (by decide)⟩

/-- C10: a post form submission sets exactly the whitelisted fields
text, group and image and never the author or the timestamp; a comment
form submission sets only text and never the author or the parent post;
every field outside the whitelist keeps its stored value. -/
theorem C10_form_whitelist (submitted stored : String → Nat) :
    modelFormSave PostFormFields submitted stored "text" = submitted "text" ∧
    modelFormSave PostFormFields submitted stored "group" = submitted "group" ∧
    modelFormSave PostFormFields submitted stored "image" = submitted "image" ∧
    modelFormSave PostFormFields submitted stored "author" = stored "author" ∧
    modelFormSave PostFormFields submitted stored "pub_date" = stored "pub_date" ∧
    modelFormSave CommentFormFields submitted stored "text" = submitted "text" ∧
    modelFormSave CommentFormFields submitted stored "author" = stored "author" ∧
    modelFormSave CommentFormFields submitted stored "post" = stored "post" ∧
    (∀ f, f ∉ PostFormFields → modelFormSave PostFormFields submitted stored f = stored f) ∧
    (∀ f, f ∉ CommentFormFields →
      modelFormSave CommentFormFields submitted stored f = stored f) := by
  refine ⟨?_, ?_, ?_, ?_, ?_, ?_, ?_, ?_, ?_, ?_⟩ <;>
    first
      | (intro f hf; simp [modelFormSave, hf])
      | simp [modelFormSave, PostFormFields, CommentFormFields]

/-- Witness for C10: the author field is outside both whitelists, so the
saved record keeps its stored author. -/
theorem C10_form_whitelist_witness :
    modelFormSave PostFormFields (fun _ => 1) (fun _ => 2) "author" = 2 ∧
    modelFormSave CommentFormFields (fun _ => 1) (fun _ => 2) "author" = 2 :=
  ⟨(C10_form_whitelist (fun _ => 1) (fun _ => 2)).2.2.2.2.2.2.2.2.1 "author" (by decide),
   (C10_form_whitelist (fun _ => 1) (fun _ => 2)).2.2.2.2.2.2.2.2.2 "author" (by decide)⟩

end Yatube
